import Mathlib

/-!
Shallow embedding of the dual-mode data-access layer of the mern-app
repository (`src/db.ts`, the route handlers of `src/server.ts`, and the
Task schema).  HTTP responses are modelled as a status code paired with a
JSON value; the mongoose connection is a value `DBConnState`, the mongoose
collections a value `Store`, and each Express handler a pure function of
those.
-/

/-- JSON values, as produced by `res.json(...)`.  Object fields keep their
insertion order, mirroring the serialisation of a JS object literal. -/
inductive JVal where
  | str : String → JVal
  | num : Int → JVal
  | bool : Bool → JVal
  | null : JVal
  | arr : List JVal → JVal
  | obj : List (String × JVal) → JVal
deriving Repr

/-- Field lookup in an ordered field list (first occurrence wins). -/
def lookupField : List (String × JVal) → String → Option JVal
  | [], _ => none
  | (k2, v) :: rest, k => if k2 = k then some v else lookupField rest k

/-- Field lookup on a JSON value: `some v` when the value is an object
with field `k`, `none` otherwise. -/
def getField (j : JVal) (k : String) : Option JVal :=
  match j with
  | .obj fs => lookupField fs k
  | _ => none

/-- Removing a field from a JSON object, the embedding of mongoose's
`.select('-field')` projection. -/
def stripField (j : JVal) (k : String) : JVal :=
  match j with
  | .obj fs => .obj (fs.filter (fun p => p.1 != k))
  | other => other

/-- The mongoose connection as observed by `getDBState` (`db.ts` line 32):
`mongoose.connection.readyState`, `.host`, `.port`. -/
structure DBConnState where
  readyState : Nat
  host : Option String
  port : Option Nat
deriving Repr, DecidableEq

/-- The `stateMap` record of `db.ts` lines 33-38. -/
def stateMap : Nat → Option String
  | 0 => some "disconnected"
  | 1 => some "connected"
  | 2 => some "connecting"
  | 3 => some "disconnecting"
  | _ => none

/-- The snapshot returned by `getDBState` (`db.ts` lines 31-46). -/
structure DBState where
  readyState : Nat
  state : String
  host : Option String
  port : Option Nat
deriving Repr, DecidableEq

/-- `getDBState` of `db.ts`: maps the numeric `readyState` through
`stateMap` (defaulting to `"unknown"`) and copies host/port
(`|| null` becomes the `Option`). -/
def getDBState (c : DBConnState) : DBState :=
  { readyState := c.readyState
    state := (stateMap c.readyState).getD "unknown"
    host := c.host
    port := c.port }

/-- JSON serialisation of the `getDBState` snapshot, as embedded in the
health payload (`server.ts` line 63). -/
def dbStateJson (s : DBState) : JVal :=
  .obj [("readyState", .num s.readyState),
        ("state", .str s.state),
        ("host", match s.host with | some h => .str h | none => .null),
        ("port", match s.port with | some p => .num p | none => .null)]

/-- Outcome of a single `mongoose.connect(uri, DEFAULT_OPTIONS)` attempt:
either a live connection (host, port) or a driver error. -/
inductive ConnectAttempt where
  | ok (host : String) (port : Nat)
  | err (msg : String)

/-- Connect options of `db.ts` lines 6-10. -/
structure ConnectOptions where
  serverSelectionTimeoutMS : Nat
  socketTimeoutMS : Nat
  family : Nat
deriving Repr, DecidableEq

/-- `DEFAULT_OPTIONS` of `db.ts`. -/
def DEFAULT_OPTIONS : ConnectOptions :=
  { serverSelectionTimeoutMS := 5000, socketTimeoutMS := 45000, family := 4 }

/-- JS `a || b` on an optional string environment variable: an unset or
empty value falls through to the default. -/
def jsOrStr (a : Option String) (b : String) : String :=
  match a with
  | some s => if s = "" then b else s
  | none => b

/-- `MONGO_URI` of `db.ts` line 12:
`process.env.MONGO_URI || process.env.DATABASE_URL || ''`. -/
def envMongoUri (envMONGO envDATABASE : Option String) : String :=
  jsOrStr envMONGO (jsOrStr envDATABASE "")

/-- The URI `connectDB` actually uses (`db.ts` line 15):
`mongoUri || MONGO_URI`. -/
def resolveUri (mongoUri : Option String) (envMONGO envDATABASE : Option String) : String :=
  jsOrStr mongoUri (envMongoUri envMONGO envDATABASE)

/-- The connection state when no connection is established:
`readyState = 0`, no host, no port. -/
def disconnectedConn : DBConnState :=
  { readyState := 0, host := none, port := none }

/-- `connectDB` of `db.ts` lines 14-29.  Returns the TS function's result
(`null` becomes `none`, the mongoose module becomes `some ()`) together
with the resulting connection state.  The `try/catch` of the source maps
every attempt outcome, error included, to a normal return: the Lean
function is total on `ConnectAttempt`, so no exception reaches the
caller. -/
def connectDB (mongoUri : Option String) (envMONGO envDATABASE : Option String)
    (attempt : String → ConnectAttempt) : Option Unit × DBConnState :=
  let uri := resolveUri mongoUri envMONGO envDATABASE
  if uri = "" then
    (none, disconnectedConn)
  else
    match attempt uri with
    | .ok h p => (some (), { readyState := 1, host := some h, port := some p })
    | .err _ => (none, disconnectedConn)

/-- A Task document as stored by mongoose under `TaskSchema`
(`models/task.ts`): `_id`, `title` (trimmed by the schema), `completed`,
the `timestamps: true` pair `createdAt`/`updatedAt`, and the internal
version key `__v`.  Timestamps are modelled as a logical clock. -/
structure StoredTask where
  _id : Nat
  title : String
  completed : Bool
  createdAt : Nat
  updatedAt : Nat
  __v : Nat
deriving Repr, DecidableEq

/-- Modelled from the spec: the User mongoose model (`src/models/user` is
not in the repository; only `server.ts` uses it).  Per the spec's data
model, a persisted User is `{ id (generated), name, email, createdAt
(timestamp) }`; mongoose additionally stores the version key `__v`. -/
structure StoredUser where
  _id : Nat
  name : String
  email : String
  createdAt : Nat
  __v : Nat
deriving Repr, DecidableEq

/-- The persistent store backing mongoose when connected, plus the
id/clock source for generated ids and timestamps. -/
structure Store where
  users : List StoredUser
  tasks : List StoredTask
  nextId : Nat
  now : Nat
deriving Repr, DecidableEq

/-- Serialisation of a stored Task document as `.lean()` materialises it:
every stored field, `__v` included. -/
def taskToJson (t : StoredTask) : JVal :=
  .obj [("_id", .num t._id),
        ("title", .str t.title),
        ("completed", .bool t.completed),
        ("createdAt", .num t.createdAt),
        ("updatedAt", .num t.updatedAt),
        ("__v", .num t.__v)]

/-- Serialisation of a stored User document with every stored field. -/
def userToJson (u : StoredUser) : JVal :=
  .obj [("_id", .num u._id),
        ("name", .str u.name),
        ("email", .str u.email),
        ("createdAt", .num u.createdAt),
        ("__v", .num u.__v)]

/-- Descending creation order used by `TaskModel.find().sort({createdAt: -1})`:
`a` comes before `b` when `b.createdAt ≤ a.createdAt`. -/
def taskDescOrd (a b : StoredTask) : Prop := b.createdAt ≤ a.createdAt

instance : DecidableRel taskDescOrd := fun a b => Nat.decLe b.createdAt a.createdAt

instance : IsTotal StoredTask taskDescOrd := ⟨fun a b => Nat.le_total b.createdAt a.createdAt⟩

instance : IsTrans StoredTask taskDescOrd := ⟨fun _ _ _ hab hbc => Nat.le_trans hbc hab⟩

/-- The embedding of `.sort({createdAt: -1})` on the task collection. -/
def sortTasksDesc (l : List StoredTask) : List StoredTask :=
  List.insertionSort taskDescOrd l

/-- The fallback user list of `server.ts` lines 75-79. -/
def mockUsers : JVal :=
  .arr [.obj [("id", .num 1), ("name", .str "John Doe"), ("email", .str "john@example.com")],
        .obj [("id", .num 2), ("name", .str "Jane Smith"), ("email", .str "jane@example.com")],
        .obj [("id", .num 3), ("name", .str "Bob Johnson"), ("email", .str "bob@example.com")]]

/-- The fallback task list of `server.ts` lines 95-98. -/
def mockTasks : JVal :=
  .arr [.obj [("title", .str "Define TypeScript interfaces (Mock)"), ("completed", .bool true)],
        .obj [("title", .str "Create React components (Mock)"), ("completed", .bool false)]]

/-- An Express response: status code and JSON body.  `res.json(x)` with no
explicit status is status 200. -/
abbrev HttpResp := Nat × JVal

/-- `GET /api/users` (`server.ts` lines 67-85): when connected,
`UserModel.find().select('-__v').lean()` — every document with `__v`
projected away; otherwise the fixed fallback list. -/
def apiGetUsers (conn : DBConnState) (store : Store) : HttpResp :=
  if (getDBState conn).state = "connected" then
    (200, .arr (store.users.map (fun u => stripField (userToJson u) "__v")))
  else
    (200, mockUsers)

/-- `GET /api/tasks` (`server.ts` lines 88-103): when connected,
`TaskModel.find().sort({createdAt: -1}).lean()`; otherwise the fixed
two-element mock list. -/
def apiGetTasks (conn : DBConnState) (store : Store) : HttpResp :=
  if (getDBState conn).state = "connected" then
    (200, .arr ((sortTasksDesc store.tasks).map taskToJson))
  else
    (200, mockTasks)

/-- The embedding of JS `String.prototype.trim()` (also used by the
`trim: true` option of `TaskSchema`): strip leading and trailing
whitespace. -/
def jsTrim (s : String) : String :=
  String.mk (((s.data.dropWhile Char.isWhitespace).reverse.dropWhile Char.isWhitespace).reverse)

/-- Request body of `POST /api/tasks`: the handler destructures only
`title`; a `completed` field may be present but is never read. -/
structure TaskBody where
  title : Option String
  completed : Option Bool
deriving Repr, DecidableEq

/-- JS falsiness of `title` in `!title || !title.trim()`: absent or empty
string, or trimming to the empty string. -/
def titleBlank : Option String → Bool
  | none => true
  | some t => t = "" || jsTrim t = ""

/-- `POST /api/tasks` (`server.ts` lines 105-120).  Validation first; when
connected, `TaskModel.create({title, completed: false})` stores the
schema-trimmed title with fresh id and timestamps and responds with the
created document; otherwise responds `{title, completed: false}` echoing
the raw title, touching nothing. -/
def apiPostTasks (conn : DBConnState) (store : Store) (body : TaskBody) :
    Nat × JVal × Store :=
  match body.title with
  | none => (400, .obj [("error", .str "Title required")], store)
  | some title =>
    if title = "" ∨ jsTrim title = "" then
      (400, .obj [("error", .str "Title required")], store)
    else if (getDBState conn).state = "connected" then
      let created : StoredTask :=
        { _id := store.nextId, title := jsTrim title, completed := false,
          createdAt := store.now, updatedAt := store.now, __v := 0 }
      (201, taskToJson created,
       { store with tasks := store.tasks ++ [created],
                    nextId := store.nextId + 1, now := store.now + 1 })
    else
      (201, .obj [("title", .str title), ("completed", .bool false)], store)

/-- Request body of `POST /api/users`. -/
structure UserBody where
  name : Option String
  email : Option String
deriving Repr, DecidableEq

/-- JS falsiness of `name`/`email` in `if (!name || !email)`: absent or
the empty string.  No trimming happens here. -/
def fieldFalsy : Option String → Bool
  | none => true
  | some s => s = ""

/-- `POST /api/users` (`server.ts` lines 122-159).  Presence check first;
when connected, `findOne({email})` then either 409 or insert and respond
with `{id, name, email, createdAt}`; otherwise respond with a fresh
non-persisted value whose id is `Date.now()`. -/
def apiPostUsers (conn : DBConnState) (store : Store) (body : UserBody) :
    Nat × JVal × Store :=
  if fieldFalsy body.name || fieldFalsy body.email then
    (400, .obj [("error", .str "Name and email are required")], store)
  else
    let name := body.name.getD ""
    let email := body.email.getD ""
    if (getDBState conn).state = "connected" then
      match store.users.find? (fun u => u.email == email) with
      | some _ => (409, .obj [("error", .str "User already exists")], store)
      | none =>
        let created : StoredUser :=
          { _id := store.nextId, name := name, email := email,
            createdAt := store.now, __v := 0 }
        (201, .obj [("id", .num created._id), ("name", .str created.name),
                    ("email", .str created.email), ("createdAt", .num created.createdAt)],
         { store with users := store.users ++ [created],
                      nextId := store.nextId + 1, now := store.now + 1 })
    else
      (201, .obj [("id", .num store.now), ("name", .str name),
                  ("email", .str email), ("createdAt", .num store.now)],
       store)

/-- `GET /api/health` (`server.ts` lines 57-65): a constant-shape payload
with the `getDBState` snapshot under `db`.  `nowIso` is the serialized
`new Date().toISOString()`, `nodeEnv` the `NODE_ENV` variable. -/
def apiHealth (nowIso : String) (nodeEnv : Option String) (conn : DBConnState) : HttpResp :=
  (200, .obj [("status", .str "OK"),
              ("message", .str "Server is running!"),
              ("timestamp", .str nowIso),
              ("environment", .str (nodeEnv.getD "development")),
              ("db", dbStateJson (getDBState conn))])

/-- The first element of a JSON array, `none` otherwise. -/
def firstElem : JVal → Option JVal
  | .arr (x :: _) => some x
  | _ => none

/-- The `title` field of the first element of a JSON array. -/
def firstTitle (j : JVal) : Option JVal :=
  (firstElem j).bind (fun e => getField e "title")

/-- A connection state observed as `connected` (readyState 1). -/
def connConn : DBConnState :=
  { readyState := 1, host := some "localhost", port := some 27017 }

/-- An empty store with a running clock, for concrete scenarios. -/
def store0 : Store :=
  { users := [], tasks := [], nextId := 1, now := 10 }

/-- A concrete stored task, for concrete scenarios. -/
def task0 : StoredTask :=
  { _id := 7, title := "a", completed := false, createdAt := 3, updatedAt := 3, __v := 0 }

/-- A store holding `task0` and one user, for concrete scenarios. -/
def store1 : Store :=
  { users := [{ _id := 5, name := "n", email := "a@b", createdAt := 1, __v := 0 }],
    tasks := [task0], nextId := 8, now := 9 }

theorem sortTasksDesc_perm (l : List StoredTask) : List.Perm (sortTasksDesc l) l :=
  List.perm_insertionSort taskDescOrd l

theorem sortTasksDesc_sorted (l : List StoredTask) :
    List.Sorted taskDescOrd (sortTasksDesc l) :=
  List.sorted_insertionSort taskDescOrd l

/-- A task strictly fresher than everything in the collection sorts to the
front of the descending listing. -/
theorem sortTasksDesc_append_fresh (l : List StoredTask) (t : StoredTask)
    (h : ∀ u ∈ l, u.createdAt < t.createdAt) :
    ∃ rest, sortTasksDesc (l ++ [t]) = t :: rest := by
  have hperm := sortTasksDesc_perm (l ++ [t])
  have hmem : t ∈ sortTasksDesc (l ++ [t]) := hperm.mem_iff.mpr (by simp)
  cases hs : sortTasksDesc (l ++ [t]) with
  | nil => rw [hs] at hmem; cases hmem
  | cons h0 rest =>
    refine ⟨rest, ?_⟩
    have hsorted := sortTasksDesc_sorted (l ++ [t])
    rw [hs] at hsorted hmem hperm
    rcases List.mem_cons.mp hmem with heq | htl
    · rw [heq]
    · have hord : taskDescOrd h0 t := (List.sorted_cons.mp hsorted).1 t htl
      have hh0 : h0 ∈ l ++ [t] := hperm.subset (List.mem_cons_self h0 rest)
      rcases List.mem_append.mp hh0 with hh0l | hh0t
      · exact absurd hord (Nat.not_le.mpr (h h0 hh0l))
      · rw [List.mem_singleton.mp hh0t]

/-- Claim C1: while the connection state is not `connected`, every call to
`GET /api/tasks` returns status 200 with exactly the fixed two-element
mock sequence, for every store contents whatsoever — so the fallback list
is idempotent and independent of any prior create calls. -/
theorem fallback_tasks_list_constant (conn : DBConnState) (store : Store)
    (h : (getDBState conn).state ≠ "connected") :
    apiGetTasks conn store = (200, mockTasks) := by
  unfold apiGetTasks
  rw [if_neg h]

/-- Witness for C1: the disconnected connection state on a concrete store. -/
theorem fallback_tasks_list_constant_witness :
    (getDBState disconnectedConn).state ≠ "connected" ∧
    apiGetTasks disconnectedConn store0 = (200, mockTasks) :=
  ⟨by decide, fallback_tasks_list_constant disconnectedConn store0 (by decide)⟩

/-- Claim C4: a `POST /api/tasks` body whose title is absent, empty or
whitespace-only is rejected with status 400 and the `Title required`
error, the store is left untouched, and the outcome is the same for every
connection state (the validation precedes the connection branch). -/
theorem task_create_blank_title_rejected (conn : DBConnState) (store : Store)
    (body : TaskBody)
    (h : body.title = none ∨ ∃ s, body.title = some s ∧ jsTrim s = "") :
    apiPostTasks conn store body = (400, .obj [("error", .str "Title required")], store) := by
  rcases h with h | ⟨s, hs, htrim⟩
  · unfold apiPostTasks
    rw [h]
  · unfold apiPostTasks
    rw [hs]
    exact if_pos (Or.inr htrim)

/-- Witness for C4: a whitespace-only title on a connected state. -/
theorem task_create_blank_title_rejected_witness :
    ((some "   " : Option String) = none ∨ ∃ s, (some "   " : Option String) = some s ∧ jsTrim s = "") ∧
    apiPostTasks connConn store0 { title := some "   ", completed := none }
      = (400, .obj [("error", .str "Title required")], store0) :=
  ⟨Or.inr ⟨"   ", rfl, rfl⟩,
   task_create_blank_title_rejected connConn store0 { title := some "   ", completed := none }
     (Or.inr ⟨"   ", rfl, rfl⟩)⟩

/-- Claim C5 counterexample: `POST /api/users` with whitespace-only `name`
and `email` is NOT rejected — the code's `!name || !email` check only
catches absent or empty strings, so the request succeeds with 201 instead
of failing with 400 as the claim requires. -/
theorem user_create_whitespace_accepted_cex :
    (apiPostUsers disconnectedConn store0 { name := some " ", email := some " " }).1 = 201 ∧
    (apiPostUsers disconnectedConn store0 { name := some " ", email := some " " }).1 ≠ 400 :=
  ⟨rfl, by decide⟩

/-- Claim C5 (amended): `POST /api/users` fails with status 400 and body
`{error: "Name and email are required"}`, before any connection-state
check or I/O and with the store untouched, whenever `name` or `email` is
absent or the empty string; whitespace-only values are not caught. -/
theorem user_create_missing_fields_rejected (conn : DBConnState) (store : Store)
    (body : UserBody)
    (h : body.name = none ∨ body.name = some "" ∨ body.email = none ∨ body.email = some "") :
    apiPostUsers conn store body
      = (400, .obj [("error", .str "Name and email are required")], store) := by
  have hc : (fieldFalsy body.name || fieldFalsy body.email) = true := by
    rcases h with h | h | h | h <;> rw [h] <;> simp [fieldFalsy]
  unfold apiPostUsers
  rw [if_pos hc]

/-- Witness for C5 (amended): a missing email field on a connected state. -/
theorem user_create_missing_fields_rejected_witness :
    ((some "Ada" : Option String) = none ∨ (some "Ada" : Option String) = some ""
      ∨ (none : Option String) = none ∨ (none : Option String) = some "") ∧
    apiPostUsers connConn store0 { name := some "Ada", email := none }
      = (400, .obj [("error", .str "Name and email are required")], store0) :=
  ⟨Or.inr (Or.inr (Or.inl rfl)),
   user_create_missing_fields_rejected connConn store0 { name := some "Ada", email := none }
     (Or.inr (Or.inr (Or.inl rfl)))⟩

/-- Claim C7: `connectDB` always resolves instead of throwing — with no
URI available from the argument or either environment variable it returns
`null` immediately with the connection still disconnected, and when the
driver attempt fails it also returns `null` with the connection state
reporting `disconnected`. -/
theorem connectDB_resolves_without_throwing
    (mu em ed : Option String) (att : String → ConnectAttempt) :
    (resolveUri mu em ed = "" →
      connectDB mu em ed att = (none, disconnectedConn) ∧
      (getDBState disconnectedConn).state = "disconnected") ∧
    (∀ m, att (resolveUri mu em ed) = ConnectAttempt.err m →
      (connectDB mu em ed att).1 = none ∧
      (getDBState (connectDB mu em ed att).2).state = "disconnected") := by
  constructor
  · intro huri
    unfold connectDB
    rw [if_pos huri]
    exact ⟨rfl, rfl⟩
  · intro m hatt
    unfold connectDB
    by_cases huri : resolveUri mu em ed = ""
    · rw [if_pos huri]
      exact ⟨rfl, rfl⟩
    · rw [if_neg huri, hatt]
      exact ⟨rfl, rfl⟩

/-- Witness for C7: no URI anywhere, and a failing driver attempt. -/
theorem connectDB_resolves_without_throwing_witness :
    resolveUri none none none = "" ∧
    connectDB none none none (fun _ => ConnectAttempt.err "timeout") = (none, disconnectedConn) ∧
    (connectDB none none none (fun _ => ConnectAttempt.err "timeout")).1 = none ∧
    (getDBState (connectDB none none none (fun _ => ConnectAttempt.err "timeout")).2).state
      = "disconnected" :=
  ⟨rfl,
   ((connectDB_resolves_without_throwing none none none
       (fun _ => ConnectAttempt.err "timeout")).1 rfl).1,
   ((connectDB_resolves_without_throwing none none none
       (fun _ => ConnectAttempt.err "timeout")).2 "timeout" rfl).1,
   ((connectDB_resolves_without_throwing none none none
       (fun _ => ConnectAttempt.err "timeout")).2 "timeout" rfl).2⟩

/-- Claim C2 counterexample: creating the task `{title: "  x  "}` (whose
trimmed content is non-blank) while connected and then listing returns
the schema-trimmed title `"x"` — not the submitted title `"  x  "` — as
the first element, because `TaskSchema` declares `trim: true`. -/
theorem create_then_list_raw_title_cex :
    firstTitle (apiGetTasks connConn
        (apiPostTasks connConn store0 { title := some "  x  ", completed := none }).2.2).2
      = some (JVal.str "x") ∧
    firstTitle (apiGetTasks connConn
        (apiPostTasks connConn store0 { title := some "  x  ", completed := none }).2.2).2
      ≠ some (JVal.str "  x  ") := by
  refine ⟨rfl, ?_⟩
  intro hcontra
  have hval : firstTitle (apiGetTasks connConn
      (apiPostTasks connConn store0 { title := some "  x  ", completed := none }).2.2).2
      = some (JVal.str "x") := rfl
  exact absurd (JVal.str.inj (Option.some.inj (hval.symm.trans hcontra))) (by decide)

/-- Claim C2 (amended): for every title whose trimmed content is
non-blank, create followed immediately by list while connected returns a
sequence whose first (most recent) element carries the schema-trimmed
title `jsTrim title` (equal to the input when it has no surrounding
whitespace); this relies on the listing being ordered descending by
creation time, with every pre-existing task strictly older than the
creation instant. -/
theorem create_then_list_first_title_trimmed (conn : DBConnState) (store : Store)
    (title : String) (oc : Option Bool)
    (hconn : (getDBState conn).state = "connected")
    (htrim : jsTrim title ≠ "")
    (hfresh : ∀ u ∈ store.tasks, u.createdAt < store.now) :
    firstTitle (apiGetTasks conn
        (apiPostTasks conn store { title := some title, completed := oc }).2.2).2
      = some (JVal.str (jsTrim title)) := by
  have hne : ¬ (title = "" ∨ jsTrim title = "") := by
    rintro (h0 | h0)
    · exact htrim (by rw [h0]; rfl)
    · exact htrim h0
  simp only [apiPostTasks]
  rw [if_neg hne, if_pos hconn]
  unfold apiGetTasks
  rw [if_pos hconn]
  obtain ⟨rest, hrest⟩ := sortTasksDesc_append_fresh store.tasks
    { _id := store.nextId, title := jsTrim title, completed := false,
      createdAt := store.now, updatedAt := store.now, __v := 0 }
    (fun u hu => hfresh u hu)
  rw [hrest]
  rfl

/-- Witness for C2 (amended): a padded title on a connected state over the
empty store. -/
theorem create_then_list_first_title_trimmed_witness :
    (getDBState connConn).state = "connected" ∧ jsTrim "  x  " ≠ "" ∧
    firstTitle (apiGetTasks connConn
        (apiPostTasks connConn store0 { title := some "  x  ", completed := none }).2.2).2
      = some (JVal.str (jsTrim "  x  ")) :=
  ⟨by decide, by decide,
   create_then_list_first_title_trimmed connConn store0 "  x  " none
     (by decide) (by decide) (by decide)⟩

/-- Claim C3: while connected, `POST /api/users` with an email already in
the store fails with 409 and inserts nothing; the same request while not
connected succeeds with 201 — fallback mode enforces no uniqueness. -/
theorem user_create_duplicate_email_asymmetry
    (connC connD : DBConnState) (store : Store) (name email : String)
    (hC : (getDBState connC).state = "connected")
    (hD : (getDBState connD).state ≠ "connected")
    (hname : name ≠ "") (hemail : email ≠ "")
    (hdup : ∃ u ∈ store.users, u.email = email) :
    (apiPostUsers connC store { name := some name, email := some email }).1 = 409 ∧
    (apiPostUsers connC store { name := some name, email := some email }).2.2 = store ∧
    (apiPostUsers connD store { name := some name, email := some email }).1 = 201 := by
  have hcond : ¬ ((fieldFalsy (some name) || fieldFalsy (some email)) = true) := by
    simp [fieldFalsy, hname, hemail]
  have hfind : store.users.find? (fun u => u.email == email) ≠ none := by
    rw [Ne, List.find?_eq_none]
    push_neg
    obtain ⟨u, hu, he⟩ := hdup
    exact ⟨u, hu, by simp [he]⟩
  refine ⟨?_, ?_, ?_⟩
  · simp only [apiPostUsers, Option.getD_some]
    rw [if_neg hcond, if_pos hC]
    cases hfd : store.users.find? (fun u => u.email == email) with
    | none => exact absurd hfd hfind
    | some w => rfl
  · simp only [apiPostUsers, Option.getD_some]
    rw [if_neg hcond, if_pos hC]
    cases hfd : store.users.find? (fun u => u.email == email) with
    | none => exact absurd hfd hfind
    | some w => rfl
  · simp only [apiPostUsers, Option.getD_some]
    rw [if_neg hcond, if_neg hD]

/-- Witness for C3: duplicate email `a@b` against the store holding it,
connected versus disconnected. -/
theorem user_create_duplicate_email_asymmetry_witness :
    (getDBState connConn).state = "connected" ∧
    (getDBState disconnectedConn).state ≠ "connected" ∧
    (∃ u ∈ store1.users, u.email = "a@b") ∧
    (apiPostUsers connConn store1 { name := some "m", email := some "a@b" }).1 = 409 ∧
    (apiPostUsers disconnectedConn store1 { name := some "m", email := some "a@b" }).1 = 201 :=
  ⟨by decide, by decide, by decide,
   (user_create_duplicate_email_asymmetry connConn disconnectedConn store1 "m" "a@b"
     (by decide) (by decide) (by decide) (by decide) (by decide)).1,
   (user_create_duplicate_email_asymmetry connConn disconnectedConn store1 "m" "a@b"
     (by decide) (by decide) (by decide) (by decide) (by decide)).2.2⟩

/-- Claim C6 counterexample: a valid task create while disconnected
responds with exactly `{title, completed: false}` — the returned value
carries NO locally generated id and NO timestamp, contrary to the claim
that every fallback create echoes the input plus a generated
id/timestamp. -/
theorem fallback_task_create_no_id_cex :
    (apiPostTasks disconnectedConn store0 { title := some "x", completed := none }).2.1
      = JVal.obj [("title", JVal.str "x"), ("completed", JVal.bool false)] ∧
    getField (apiPostTasks disconnectedConn store0
      { title := some "x", completed := none }).2.1 "id" = none ∧
    getField (apiPostTasks disconnectedConn store0
      { title := some "x", completed := none }).2.1 "_id" = none ∧
    getField (apiPostTasks disconnectedConn store0
      { title := some "x", completed := none }).2.1 "createdAt" = none :=
  ⟨rfl, rfl, rfl, rfl⟩

/-- Claim C6 (amended): for every valid create input performed while not
connected, nothing is persisted (the store is unchanged) and subsequent
lists still return the fixed fallback sequences; the User create responds
echoing the fields plus a locally generated id and timestamp
(`Date.now()`), while the Task create responds with only
`{title, completed: false}` — no id and no timestamp. -/
theorem fallback_create_stateless (conn : DBConnState) (store : Store)
    (title name email : String) (oc : Option Bool)
    (hconn : (getDBState conn).state ≠ "connected")
    (htitle : ¬ (title = "" ∨ jsTrim title = ""))
    (hname : name ≠ "") (hemail : email ≠ "") :
    apiPostTasks conn store { title := some title, completed := oc }
      = (201, .obj [("title", .str title), ("completed", .bool false)], store) ∧
    apiPostUsers conn store { name := some name, email := some email }
      = (201, .obj [("id", .num store.now), ("name", .str name),
                    ("email", .str email), ("createdAt", .num store.now)], store) ∧
    apiGetTasks conn store = (200, mockTasks) ∧
    apiGetUsers conn store = (200, mockUsers) := by
  have hcond : ¬ ((fieldFalsy (some name) || fieldFalsy (some email)) = true) := by
    simp [fieldFalsy, hname, hemail]
  refine ⟨?_, ?_, ?_, ?_⟩
  · simp only [apiPostTasks]
    rw [if_neg htitle, if_neg hconn]
  · simp only [apiPostUsers, Option.getD_some]
    rw [if_neg hcond, if_neg hconn]
  · unfold apiGetTasks
    rw [if_neg hconn]
  · unfold apiGetUsers
    rw [if_neg hconn]

/-- Witness for C6 (amended): valid task and user bodies on a
disconnected state. -/
theorem fallback_create_stateless_witness :
    (getDBState disconnectedConn).state ≠ "connected" ∧
    ¬ ("Write docs" = "" ∨ jsTrim "Write docs" = "") ∧
    apiPostTasks disconnectedConn store0 { title := some "Write docs", completed := some true }
      = (201, .obj [("title", .str "Write docs"), ("completed", .bool false)], store0) ∧
    apiPostUsers disconnectedConn store0 { name := some "Ada", email := some "ada@x" }
      = (201, .obj [("id", .num store0.now), ("name", .str "Ada"),
                    ("email", .str "ada@x"), ("createdAt", .num store0.now)], store0) :=
  ⟨by decide, by decide,
   (fallback_create_stateless disconnectedConn store0 "Write docs" "Ada" "ada@x" (some true)
     (by decide) (by decide) (by decide) (by decide)).1,
   (fallback_create_stateless disconnectedConn store0 "Write docs" "Ada" "ada@x" (some true)
     (by decide) (by decide) (by decide) (by decide)).2.1⟩

/-- Claim C8 counterexample: while connected, `GET /api/tasks` returns
the stored documents with the `__v` version key still present — it is not
stripped, contrary to the claim that list strips internal versioning
fields from every element of both endpoints. -/
theorem task_list_keeps_version_key_cex :
    (apiGetTasks connConn store1).2 = JVal.arr [taskToJson task0] ∧
    getField (taskToJson task0) "__v" = some (JVal.num 0) ∧
    getField (taskToJson task0) "__v" ≠ none := by
  refine ⟨rfl, rfl, ?_⟩
  intro h
  exact Option.noConfusion
    ((rfl : getField (taskToJson task0) "__v" = some (JVal.num 0)).symm.trans h)

/-- Claim C8 (amended): while connected, `GET /api/users` returns the
stored users in store order with `__v` stripped from every element, and
`GET /api/tasks` returns a permutation of the stored tasks sorted
descending by creation time, each serialized with every stored field —
`__v` included (only the User query carries `select('-__v')`). -/
theorem connected_list_projection (conn : DBConnState) (store : Store)
    (hconn : (getDBState conn).state = "connected") :
    (apiGetUsers conn store).2
      = .arr (store.users.map (fun u => stripField (userToJson u) "__v")) ∧
    (∀ u : StoredUser, getField (stripField (userToJson u) "__v") "__v" = none) ∧
    (apiGetTasks conn store).2 = .arr ((sortTasksDesc store.tasks).map taskToJson) ∧
    (∀ t : StoredTask, getField (taskToJson t) "__v" = some (.num t.__v)) ∧
    List.Perm (sortTasksDesc store.tasks) store.tasks ∧
    List.Sorted taskDescOrd (sortTasksDesc store.tasks) := by
  refine ⟨?_, fun u => rfl, ?_, fun t => rfl, sortTasksDesc_perm _, sortTasksDesc_sorted _⟩
  · unfold apiGetUsers
    rw [if_pos hconn]
  · unfold apiGetTasks
    rw [if_pos hconn]

/-- Witness for C8 (amended): the connected state over the concrete
store holding one user and one task. -/
theorem connected_list_projection_witness :
    (getDBState connConn).state = "connected" ∧
    (apiGetUsers connConn store1).2
      = .arr (store1.users.map (fun u => stripField (userToJson u) "__v")) ∧
    (apiGetTasks connConn store1).2 = .arr ((sortTasksDesc store1.tasks).map taskToJson) :=
  ⟨by decide,
   (connected_list_projection connConn store1 (by decide)).1,
   (connected_list_projection connConn store1 (by decide)).2.2.1⟩

/-- Claim C9 counterexample: with no database URI configured anywhere,
the health payload's `db` object has no `phase` field at all — the code
names the field `state` (and also includes `readyState`) — so `db.phase`
cannot equal `"disconnected"`. -/
theorem health_db_phase_field_cex :
    ((getField (apiHealth "2026-10-11T00:00:00.000Z" none
        (connectDB none none none (fun _ => ConnectAttempt.err "unreachable")).2).2 "db").bind
      (fun d => getField d "phase")) = none ∧
    ((getField (apiHealth "2026-10-11T00:00:00.000Z" none
        (connectDB none none none (fun _ => ConnectAttempt.err "unreachable")).2).2 "db").bind
      (fun d => getField d "state")) = some (JVal.str "disconnected") ∧
    ¬ (((getField (apiHealth "2026-10-11T00:00:00.000Z" none
        (connectDB none none none (fun _ => ConnectAttempt.err "unreachable")).2).2 "db").bind
      (fun d => getField d "phase")) = some (JVal.str "disconnected")) := by
  refine ⟨rfl, rfl, ?_⟩
  intro h
  exact Option.noConfusion
    (((rfl : ((getField (apiHealth "2026-10-11T00:00:00.000Z" none
        (connectDB none none none (fun _ => ConnectAttempt.err "unreachable")).2).2 "db").bind
      (fun d => getField d "phase")) = none)).symm.trans h)

/-- Claim C9 (amended): when no database URI is configured, `GET
/api/health` returns a payload of shape `{status, message, timestamp,
environment, db}` whose `db` sub-object is `{readyState, state, host,
port}` with `state = "disconnected"` (the connection-phase field is named
`state`, accompanied by the numeric `readyState`; `host` and `port` are
null). -/
theorem health_payload_shape (nowIso : String) (nodeEnv : Option String)
    (mu em ed : Option String) (att : String → ConnectAttempt)
    (hnouri : resolveUri mu em ed = "") :
    apiHealth nowIso nodeEnv (connectDB mu em ed att).2
      = (200, .obj [("status", .str "OK"),
                    ("message", .str "Server is running!"),
                    ("timestamp", .str nowIso),
                    ("environment", .str (nodeEnv.getD "development")),
                    ("db", .obj [("readyState", .num 0),
                                 ("state", .str "disconnected"),
                                 ("host", .null), ("port", .null)])]) := by
  simp only [connectDB]
  rw [if_pos hnouri]
  rfl

/-- Witness for C9 (amended): no URI from the argument or either
environment variable. -/
theorem health_payload_shape_witness :
    resolveUri none none none = "" ∧
    apiHealth "t" none (connectDB none none none (fun _ => ConnectAttempt.err "x")).2
      = (200, .obj [("status", .str "OK"),
                    ("message", .str "Server is running!"),
                    ("timestamp", .str "t"),
                    ("environment", .str ((none : Option String).getD "development")),
                    ("db", .obj [("readyState", .num 0),
                                 ("state", .str "disconnected"),
                                 ("host", .null), ("port", .null)])]) :=
  ⟨rfl, health_payload_shape "t" none none none none (fun _ => ConnectAttempt.err "x") rfl⟩

/-- Claim C10: every successful `POST /api/tasks` (status 201) responds
with `completed = false`, whatever `completed` value the client supplied
and in both connected and fallback modes — the handler constructs the
record with `completed` fixed to `false`. -/
theorem task_create_forces_completed_false (conn : DBConnState) (store : Store)
    (body : TaskBody)
    (hs : (apiPostTasks conn store body).1 = 201) :
    getField (apiPostTasks conn store body).2.1 "completed" = some (JVal.bool false) := by
  cases hob : body.title with
  | none =>
    simp only [apiPostTasks, hob] at hs
    exact absurd (show (400 : Nat) = 201 from hs) (by decide)
  | some t =>
    simp only [apiPostTasks, hob] at hs ⊢
    by_cases hb : t = "" ∨ jsTrim t = ""
    · rw [if_pos hb] at hs
      exact absurd (show (400 : Nat) = 201 from hs) (by decide)
    · rw [if_neg hb] at hs ⊢
      by_cases hc : (getDBState conn).state = "connected"
      · rw [if_pos hc]
        rfl
      · rw [if_neg hc]
        rfl

/-- Witness for C10: a client sending `completed: true` while connected
still receives `completed: false`. -/
theorem task_create_forces_completed_false_witness :
    (apiPostTasks connConn store0 { title := some "x", completed := some true }).1 = 201 ∧
    getField (apiPostTasks connConn store0
      { title := some "x", completed := some true }).2.1 "completed"
      = some (JVal.bool false) :=
  ⟨rfl, task_create_forces_completed_false connConn store0
    { title := some "x", completed := some true } rfl⟩
